import Mathlib

set_option maxRecDepth 3000

/-!
Verification of `tools/gen-sample-packages.py` (TritonDataCenter/sdcadm).

The script builds a hardcoded base package dictionary `top`, then for each
RAM size in `[0.25, 0.5, 1., 4., 8., 16.]` (gigabytes) derives a scaled
copy, floors/rounds `cpu_cap`, sets `fss`, builds a name and a description,
and emits a bare (`-smartos`) and an accelerated (`-kvm`) variant.

All of the script's float arithmetic on its fixed constants is exact in
IEEE double precision (every divisor is a power of two), except
`cpu_cap / 100.0` in the `vcpu` computation, where the rounded double and
the exact rational truncate to the same integer (20/100 rounds to a double
slightly above 1/5, both truncating to 0).  So the embedding uses exact
rationals (`ℚ`) for every numeric field, which is faithful to each value
the program actually computes.  Python 2 dict equality compares numeric
values by `==` (so `16384 == 16384.0`), matching equality on `ℚ`.
-/

/-- Python 2 `int()` applied to a number: truncation toward zero. -/
def pyTrunc (q : ℚ) : ℤ :=
  if 0 ≤ q then ⌊q⌋ else -⌊-q⌋

/-- Python 2 `round()`: round half away from zero (result is a float,
here kept as `ℚ`). -/
def pyRound (q : ℚ) : ℚ :=
  if 0 ≤ q then (⌊q + 1/2⌋ : ℤ) else -(⌊-q + 1/2⌋ : ℤ)

/-- Auxiliary: decimal expansion digits of a fractional part `q` with
`0 ≤ q < 1`, stopping when the remainder hits zero (fuel-bounded). -/
def fracDigits : ℚ → Nat → List Nat
  | _, 0 => []
  | q, Nat.succ n =>
    if q = 0 then []
    else
      let d := ⌊q * 10⌋
      d.toNat :: fracDigits (q * 10 - (d : ℚ)) n

/-- Python 2 `str()` of a nonnegative float whose value is a dyadic
rational with a short exact decimal expansion (all values this script
formats are such): integer part, a dot, and the fractional digits, with a
single `0` when the value is an integer (`str(1.0) = "1.0"`,
`str(0.25) = "0.25"`). -/
def pyFloatStr (q : ℚ) : String :=
  let ip := (⌊q⌋).toNat
  let fr := q - (⌊q⌋ : ℚ)
  let ds := if fr = 0 then [0] else fracDigits fr 20
  toString ip ++ "." ++ String.join (ds.map (fun d => toString d))

/-- The package record.  `top` (lines 37-51 of the script) carries the
thirteen keys of the dict literal; the generation loop adds `fss`
(line 76) and, on the accelerated copy only, `vcpu` (line 89), so those
two are `Option`-valued, `none` meaning the key is absent. -/
structure Preset where
  name : String
  version : String
  active : Bool
  cpu_cap : ℚ
  «default» : Bool
  max_lwps : ℚ
  max_physical_memory : ℚ
  max_swap : ℚ
  quota : ℚ
  zfs_io_priority : ℚ
  group : String
  description : String
  v : ℚ
  fss : Option ℚ
  vcpu : Option ℤ
  deriving DecidableEq

/-- The key set of the underlying Python dict. -/
def fieldNames (p : Preset) : List String :=
  ["name", "version", "active", "cpu_cap", "default", "max_lwps",
   "max_physical_memory", "max_swap", "quota", "zfs_io_priority",
   "group", "description", "v"]
  ++ (if p.fss.isSome then ["fss"] else [])
  ++ (if p.vcpu.isSome then ["vcpu"] else [])

/-- The base configuration `top` (script lines 37-51). -/
def top : Preset where
  name := "sample-16-smartos"
  version := "1.0.0"
  active := true
  cpu_cap := 200
  «default» := false
  max_lwps := 4000
  max_physical_memory := 16384
  max_swap := 32768
  quota := 262144
  zfs_io_priority := 100
  group := "Sample"
  description := "Sample 16 GB RAM, 256 GB Disk"
  v := 1
  fss := none
  vcpu := none

/-- `ram_str` computation, script lines 79-81: divide by 1024.0 and
render as an integer when whole, else as the float. -/
def ramStr (mpm : ℚ) : String :=
  let r := mpm / 1024
  if r = (pyTrunc r : ℚ) then toString (pyTrunc r) else pyFloatStr r

/-- The bare (`-smartos`) preset built by one iteration of the loop,
script lines 66-86. -/
def pkg (ram_gb : ℚ) : Preset :=
  let ram_mb := ram_gb * 1024
  let factor := top.max_physical_memory / ram_mb
  let cpu_cap0 := top.cpu_cap / factor
  let mpm := top.max_physical_memory / factor
  let msw := top.max_swap / factor
  let quo := top.quota / factor
  let cap := if cpu_cap0 < 20 then 20 else pyRound cpu_cap0
  { top with
    cpu_cap := cap
    max_physical_memory := mpm
    max_swap := msw
    quota := quo
    fss := some cap
    name := "sample-" ++ pyFloatStr ram_gb ++ "-smartos"
    description :=
      "Sample " ++ ramStr mpm ++ " GB RAM, "
        ++ toString (pyTrunc (quo / 1024)) ++ " GB Disk" }

/-- The accelerated (`-kvm`) preset: a copy of the bare one with `vcpu`
added and the name suffix replaced, script lines 88-90. -/
def pkg_kvm (ram_gb : ℚ) : Preset :=
  let p := pkg ram_gb
  { p with
    vcpu := some (max 1 (pyTrunc (p.cpu_cap / 100)))
    name := "sample-" ++ pyFloatStr ram_gb ++ "-kvm" }

/-- The scale-factor list of script line 65: `[0.25, 0.5, 1., 4., 8., 16.]`. -/
def scaleFactors : List ℚ := [0.25, 0.5, 1, 4, 8, 16]

/-- The emitted list `pkgs`: per scale factor, the bare preset then the
accelerated one, in list order (script lines 64-91). -/
def pkgs : List Preset := scaleFactors.flatMap (fun s => [pkg s, pkg_kvm s])

/-- `pkgs` written out element by element. -/
theorem pkgs_eq :
    pkgs = [pkg 0.25, pkg_kvm 0.25, pkg 0.5, pkg_kvm 0.5, pkg 1, pkg_kvm 1,
      pkg 4, pkg_kvm 4, pkg 8, pkg_kvm 8, pkg 16, pkg_kvm 16] := rfl

theorem mem_pkgs_bare {s : ℚ} (hs : s ∈ scaleFactors) : pkg s ∈ pkgs :=
  List.mem_flatMap.mpr ⟨s, hs, List.mem_cons_self _ _⟩

theorem mem_pkgs_kvm {s : ℚ} (hs : s ∈ scaleFactors) : pkg_kvm s ∈ pkgs :=
  List.mem_flatMap.mpr ⟨s, hs, List.mem_cons_of_mem _ (List.mem_cons_self _ _)⟩

theorem quarter_mem : (0.25 : ℚ) ∈ scaleFactors :=
  List.mem_cons_self _ _

theorem half_mem : (0.5 : ℚ) ∈ scaleFactors :=
  List.mem_cons_of_mem _ (List.mem_cons_self _ _)

theorem sixteen_mem : (16 : ℚ) ∈ scaleFactors := by
  simp only [scaleFactors, List.mem_cons]
  norm_num

/-- The field names the spec's data model lists for a record (claim C2),
under the most generous reading: both names of the "aliased" pair
`zfs_io_priority`/`fss`, and the accelerated-only `vcpu`.  This definition
follows the spec's words, to be compared with `fieldNames` of the records
the code builds. -/
def specListedFieldNames : List String :=
  ["name", "version", "active", "cpu_cap", "default", "max_lwps",
   "max_physical_memory", "max_swap", "quota", "zfs_io_priority", "fss",
   "group", "description", "vcpu"]

/-- Claim C1, as stated, is false: in the first emitted preset
(`sample-0.25-smartos`), `zfs_io_priority` is the base's untouched `100`
while the final `cpu_cap` is `20`.  The loop (line 76) assigns `cpu_cap`
to the separate key `fss` and never writes `zfs_io_priority`. -/
theorem c1_zfs_io_priority_cex :
    pkg 0.25 ∈ pkgs ∧ (pkg 0.25).zfs_io_priority = 100 ∧
      (pkg 0.25).cpu_cap = 20 ∧
      (pkg 0.25).zfs_io_priority ≠ (pkg 0.25).cpu_cap := by
  refine ⟨mem_pkgs_bare quarter_mem, ?_, ?_, ?_⟩ <;> with_unfolding_all decide

/-- Claim C1 (amended): for every preset in the output sequence (both
bare and accelerated variants), `zfs_io_priority` keeps the base's
constant value `100`, and it is the field `fss` that equals the preset's
final `cpu_cap` value at emission time. -/
theorem c1_zfs_io_priority_constant_fss_eq_cpu_cap :
    ∀ p ∈ pkgs, p.zfs_io_priority = 100 ∧ p.fss = some p.cpu_cap := by
  intro p hp
  rw [pkgs_eq] at hp
  simp only [List.mem_cons, List.not_mem_nil, or_false] at hp
  rcases hp with rfl | rfl | rfl | rfl | rfl | rfl | rfl | rfl | rfl | rfl | rfl | rfl <;>
    exact ⟨by with_unfolding_all decide, by with_unfolding_all decide⟩

theorem c1_zfs_io_priority_constant_fss_eq_cpu_cap_witness :
    (pkg 0.25).zfs_io_priority = 100 ∧ (pkg 0.25).fss = some (pkg 0.25).cpu_cap :=
  c1_zfs_io_priority_constant_fss_eq_cpu_cap (pkg 0.25) (mem_pkgs_bare quarter_mem)

/-- Claim C2, as stated, is false: the first emitted record carries the
field `v` (inherited from the base dict, line 50 `"v": 1`), which is not
among the field names the spec's data model lists, even when both
`zfs_io_priority` and `fss` and the accelerated-only `vcpu` are all
counted as listed. -/
theorem c2_field_names_cex :
    pkg 0.25 ∈ pkgs ∧ "v" ∈ fieldNames (pkg 0.25) ∧
      "v" ∉ specListedFieldNames := by
  refine ⟨mem_pkgs_bare quarter_mem, ?_, ?_⟩ <;> with_unfolding_all decide

/-- Claim C2 (amended): every bare record has exactly the listed field
names plus the extra field `v`, with `zfs_io_priority` and `fss` present
as two distinct fields; the accelerated record has exactly those plus
`vcpu`. -/
theorem c2_field_names_amended :
    ∀ s ∈ scaleFactors,
      fieldNames (pkg s) =
        ["name", "version", "active", "cpu_cap", "default", "max_lwps",
         "max_physical_memory", "max_swap", "quota", "zfs_io_priority",
         "group", "description", "v", "fss"] ∧
      fieldNames (pkg_kvm s) =
        ["name", "version", "active", "cpu_cap", "default", "max_lwps",
         "max_physical_memory", "max_swap", "quota", "zfs_io_priority",
         "group", "description", "v", "fss", "vcpu"] := by
  intro s hs
  simp only [scaleFactors, List.mem_cons, List.not_mem_nil, or_false] at hs
  rcases hs with rfl | rfl | rfl | rfl | rfl | rfl <;>
    exact ⟨by with_unfolding_all decide, by with_unfolding_all decide⟩

theorem c2_field_names_amended_witness :
    fieldNames (pkg 0.25) =
      ["name", "version", "active", "cpu_cap", "default", "max_lwps",
       "max_physical_memory", "max_swap", "quota", "zfs_io_priority",
       "group", "description", "v", "fss"] ∧
    fieldNames (pkg_kvm 0.25) =
      ["name", "version", "active", "cpu_cap", "default", "max_lwps",
       "max_physical_memory", "max_swap", "quota", "zfs_io_priority",
       "group", "description", "v", "fss", "vcpu"] :=
  c2_field_names_amended 0.25 quarter_mem

/-- Claim C3: every emitted preset has `cpu_cap ≥ 20`; and the floor
really bites, e.g. for scale factor 0.25 the proportionally scaled value
`200 / 64` is below 20 yet the emitted `cpu_cap` is exactly 20. -/
theorem c3_cpu_cap_floor :
    (∀ p ∈ pkgs, 20 ≤ p.cpu_cap) ∧
      top.cpu_cap / (top.max_physical_memory / (0.25 * 1024)) < 20 ∧
      (pkg 0.25).cpu_cap = 20 := by
  refine ⟨?_, by with_unfolding_all decide, by with_unfolding_all decide⟩
  intro p hp
  rw [pkgs_eq] at hp
  simp only [List.mem_cons, List.not_mem_nil, or_false] at hp
  rcases hp with rfl | rfl | rfl | rfl | rfl | rfl | rfl | rfl | rfl | rfl | rfl | rfl <;>
    with_unfolding_all decide

theorem c3_cpu_cap_floor_witness : 20 ≤ (pkg 0.25).cpu_cap :=
  c3_cpu_cap_floor.1 (pkg 0.25) (mem_pkgs_bare quarter_mem)

/-- Claim C4: for every preset in the output sequence, the field `fss`
equals the preset's `cpu_cap` value after the floor/rounding step. -/
theorem c4_fss_eq_cpu_cap : ∀ p ∈ pkgs, p.fss = some p.cpu_cap := by
  intro p hp
  rw [pkgs_eq] at hp
  simp only [List.mem_cons, List.not_mem_nil, or_false] at hp
  rcases hp with rfl | rfl | rfl | rfl | rfl | rfl | rfl | rfl | rfl | rfl | rfl | rfl <;>
    rfl

theorem c4_fss_eq_cpu_cap_witness : (pkg 0.25).fss = some (pkg 0.25).cpu_cap :=
  c4_fss_eq_cpu_cap (pkg 0.25) (mem_pkgs_bare quarter_mem)

/-- Claim C5: the output has length `2 × |scaleFactors|`, and for each
index `i` into the scale-factor list, position `2i` of the output is the
bare preset for that factor and position `2i + 1` its accelerated
variant: output order matches input order, bare immediately followed by
accelerated (for out-of-range `i` both sides are `none`). -/
theorem c5_two_per_factor_in_order :
    pkgs.length = 2 * scaleFactors.length ∧
      ∀ i : Nat,
        pkgs[2 * i]? = (scaleFactors[i]?).map pkg ∧
        pkgs[2 * i + 1]? = (scaleFactors[i]?).map pkg_kvm := by
  refine ⟨rfl, ?_⟩
  intro i
  by_cases h : i < 6
  · interval_cases i <;> exact ⟨rfl, rfl⟩
  · have hs : scaleFactors.length ≤ i := by
      simp only [scaleFactors, List.length_cons, List.length_nil]
      omega
    have hp : pkgs.length ≤ 2 * i := by
      have h12 : pkgs.length = 12 := rfl
      omega
    have hp1 : pkgs.length ≤ 2 * i + 1 := by omega
    simp [List.getElem?_eq_none hs, List.getElem?_eq_none hp,
      List.getElem?_eq_none hp1]

theorem c5_two_per_factor_in_order_witness :
    pkgs[2 * 3]? = (scaleFactors[3]?).map pkg ∧
      pkgs[2 * 3 + 1]? = (scaleFactors[3]?).map pkg_kvm :=
  c5_two_per_factor_in_order.2 3

/-- Claim C6: every accelerated preset carries
`vcpu = max 1 ⌊cpu_cap / 100⌋` (hence `vcpu ≥ 1`), every bare preset has
no `vcpu` field, and for scale factor 16 the accelerated `vcpu` is 2. -/
theorem c6_vcpu :
    (∀ p ∈ pkgs, p.vcpu.isSome = true →
        p.vcpu = some (max 1 ⌊p.cpu_cap / 100⌋) ∧ (1 : ℤ) ≤ p.vcpu.getD 0) ∧
      (∀ s ∈ scaleFactors, (pkg s).vcpu = none) ∧
      (pkg_kvm 16).vcpu = some 2 := by
  refine ⟨?_, ?_, by with_unfolding_all decide⟩
  · intro p hp
    rw [pkgs_eq] at hp
    simp only [List.mem_cons, List.not_mem_nil, or_false] at hp
    rcases hp with rfl | rfl | rfl | rfl | rfl | rfl | rfl | rfl | rfl | rfl | rfl | rfl <;>
      with_unfolding_all decide
  · intro s hs
    simp only [scaleFactors, List.mem_cons, List.not_mem_nil, or_false] at hs
    rcases hs with rfl | rfl | rfl | rfl | rfl | rfl <;> rfl

theorem c6_vcpu_witness :
    (pkg_kvm 0.25).vcpu = some (max 1 ⌊(pkg_kvm 0.25).cpu_cap / 100⌋) ∧
      (1 : ℤ) ≤ (pkg_kvm 0.25).vcpu.getD 0 :=
  c6_vcpu.1 (pkg_kvm 0.25) (mem_pkgs_kvm quarter_mem) (by with_unfolding_all decide)

/-- Claim C7: the concrete scenario for scale factor 0.25 with base RAM
16384 MB: raw `cpu_cap` is `200 / 64 = 3.125`, floored up to 20;
`max_physical_memory = 256`, `max_swap = 512`, `quota = 4096`,
`fss = 20`, bare name `sample-0.25-smartos`, description
`"Sample 0.25 GB RAM, 4 GB Disk"`; accelerated name `sample-0.25-kvm`
with `vcpu = 1`. -/
theorem c7_scenario_quarter :
    top.max_physical_memory = 16384 ∧
      top.cpu_cap / (top.max_physical_memory / (0.25 * 1024)) = 25 / 8 ∧
      (pkg 0.25).cpu_cap = 20 ∧
      (pkg 0.25).max_physical_memory = 256 ∧
      (pkg 0.25).max_swap = 512 ∧
      (pkg 0.25).quota = 4096 ∧
      (pkg 0.25).fss = some 20 ∧
      (pkg 0.25).name = "sample-0.25-smartos" ∧
      (pkg 0.25).description = "Sample 0.25 GB RAM, 4 GB Disk" ∧
      (pkg_kvm 0.25).name = "sample-0.25-kvm" ∧
      (pkg_kvm 0.25).vcpu = some 1 := by
  refine ⟨rfl, ?_, ?_, ?_, ?_, ?_, ?_, ?_, ?_, ?_, ?_⟩
  · refine Rat.ext ?_ ?_ <;> with_unfolding_all decide
  · with_unfolding_all decide
  · refine Rat.ext ?_ ?_ <;> with_unfolding_all decide
  · refine Rat.ext ?_ ?_ <;> with_unfolding_all decide
  · refine Rat.ext ?_ ?_ <;> with_unfolding_all decide
  · with_unfolding_all decide
  · with_unfolding_all decide
  · with_unfolding_all decide
  · with_unfolding_all decide
  · with_unfolding_all decide

/-- Claim C8: for each scale factor the accelerated preset agrees with
the bare one on every field except the name (suffix `-kvm` instead of
`-smartos`) and the added `vcpu` field. -/
theorem c8_kvm_frame :
    ∀ s ∈ scaleFactors,
      (pkg_kvm s).version = (pkg s).version ∧
      (pkg_kvm s).active = (pkg s).active ∧
      (pkg_kvm s).cpu_cap = (pkg s).cpu_cap ∧
      (pkg_kvm s).default = (pkg s).default ∧
      (pkg_kvm s).max_lwps = (pkg s).max_lwps ∧
      (pkg_kvm s).max_physical_memory = (pkg s).max_physical_memory ∧
      (pkg_kvm s).max_swap = (pkg s).max_swap ∧
      (pkg_kvm s).quota = (pkg s).quota ∧
      (pkg_kvm s).zfs_io_priority = (pkg s).zfs_io_priority ∧
      (pkg_kvm s).group = (pkg s).group ∧
      (pkg_kvm s).description = (pkg s).description ∧
      (pkg_kvm s).v = (pkg s).v ∧
      (pkg_kvm s).fss = (pkg s).fss ∧
      (pkg s).vcpu = none ∧ (pkg_kvm s).vcpu.isSome = true ∧
      (pkg s).name = "sample-" ++ pyFloatStr s ++ "-smartos" ∧
      (pkg_kvm s).name = "sample-" ++ pyFloatStr s ++ "-kvm" := by
  intro s hs
  exact ⟨rfl, rfl, rfl, rfl, rfl, rfl, rfl, rfl, rfl, rfl, rfl, rfl, rfl, rfl,
    rfl, rfl, rfl⟩

theorem c8_kvm_frame_witness :
    (pkg_kvm 0.5).version = (pkg 0.5).version ∧
      (pkg_kvm 0.5).active = (pkg 0.5).active ∧
      (pkg_kvm 0.5).cpu_cap = (pkg 0.5).cpu_cap ∧
      (pkg_kvm 0.5).default = (pkg 0.5).default ∧
      (pkg_kvm 0.5).max_lwps = (pkg 0.5).max_lwps ∧
      (pkg_kvm 0.5).max_physical_memory = (pkg 0.5).max_physical_memory ∧
      (pkg_kvm 0.5).max_swap = (pkg 0.5).max_swap ∧
      (pkg_kvm 0.5).quota = (pkg 0.5).quota ∧
      (pkg_kvm 0.5).zfs_io_priority = (pkg 0.5).zfs_io_priority ∧
      (pkg_kvm 0.5).group = (pkg 0.5).group ∧
      (pkg_kvm 0.5).description = (pkg 0.5).description ∧
      (pkg_kvm 0.5).v = (pkg 0.5).v ∧
      (pkg_kvm 0.5).fss = (pkg 0.5).fss ∧
      (pkg 0.5).vcpu = none ∧ (pkg_kvm 0.5).vcpu.isSome = true ∧
      (pkg 0.5).name = "sample-" ++ pyFloatStr 0.5 ++ "-smartos" ∧
      (pkg_kvm 0.5).name = "sample-" ++ pyFloatStr 0.5 ++ "-kvm" :=
  c8_kvm_frame 0.5 half_mem

/-- Claim C9: no emitted preset equals the base configuration `top`; in
particular, even for scale factor 16 (divisor 1) the emitted presets
differ from `top` (their name is `sample-16.0-…`, not `sample-16-smartos`,
and they carry an `fss` key `top` lacks). -/
theorem c9_top_never_emitted :
    (∀ p ∈ pkgs, p ≠ top) ∧ pkg 16 ≠ top ∧ pkg_kvm 16 ≠ top := by
  refine ⟨?_,
    fun h => absurd (congrArg Preset.name h) (by with_unfolding_all decide),
    fun h => absurd (congrArg Preset.name h) (by with_unfolding_all decide)⟩
  intro p hp
  rw [pkgs_eq] at hp
  simp only [List.mem_cons, List.not_mem_nil, or_false] at hp
  rcases hp with rfl | rfl | rfl | rfl | rfl | rfl | rfl | rfl | rfl | rfl | rfl | rfl <;>
    exact fun h => absurd (congrArg Preset.name h) (by with_unfolding_all decide)

theorem c9_top_never_emitted_witness : pkg 16 ≠ top :=
  c9_top_never_emitted.1 (pkg 16) (mem_pkgs_bare sixteen_mem)

/-- Claim C10: for every emitted preset, `max_swap` is exactly twice
`max_physical_memory` and `quota` is exactly sixteen times
`max_physical_memory`, the same ratios the base `top` has
(32768 = 2 × 16384 and 262144 = 16 × 16384), preserved because all three
fields are divided by the same factor. -/
theorem c10_ratios_preserved :
    (∀ p ∈ pkgs,
        p.max_swap = 2 * p.max_physical_memory ∧
        p.quota = 16 * p.max_physical_memory) ∧
      top.max_swap = 2 * top.max_physical_memory ∧
      top.quota = 16 * top.max_physical_memory := by
  refine ⟨?_,
    by refine Rat.ext ?_ ?_ <;> with_unfolding_all decide,
    by refine Rat.ext ?_ ?_ <;> with_unfolding_all decide⟩
  intro p hp
  rw [pkgs_eq] at hp
  simp only [List.mem_cons, List.not_mem_nil, or_false] at hp
  rcases hp with rfl | rfl | rfl | rfl | rfl | rfl | rfl | rfl | rfl | rfl | rfl | rfl <;>
    exact ⟨by refine Rat.ext ?_ ?_ <;> with_unfolding_all decide,
      by refine Rat.ext ?_ ?_ <;> with_unfolding_all decide⟩

theorem c10_ratios_preserved_witness :
    (pkg 0.25).max_swap = 2 * (pkg 0.25).max_physical_memory ∧
      (pkg 0.25).quota = 16 * (pkg 0.25).max_physical_memory :=
  c10_ratios_preserved.1 (pkg 0.25) (mem_pkgs_bare quarter_mem)
